import Mathlib

/-!
Shallow embedding of the `ReverseDutchAuctionSwap` Solidity contract
(`createAuction`, `getCurrentPrice`, `buy`, `cancelAuction`).

Machine integers (`uint256`) are modelled as `Nat` together with the checked
arithmetic of Solidity 0.8: an addition, subtraction or multiplication whose
mathematical result leaves `[0, 2^256)` reverts with an arithmetic panic
instead of wrapping.  Revert strings are carried verbatim.  The contract's
storage (the `auctions` mapping with its zero-initialised default records, and
`auctionCount`) is an explicit state record; each external function maps a
pre-state and its arguments to either a revert (`Except.error`) or a result
carrying the post-state, the outbound transfers it issues (in order), and the
events it emits.  The external ERC20 ledger's response to `transferFrom` is an
explicit parameter, since the contract does not control it: the ledger can
succeed, revert, or refuse by returning `false` (a return value the contract
never reads).
-/

/-- `2^256`, the exclusive bound of `uint256` values. -/
def UINT256 : Nat := 2 ^ 256

/-- A reverted execution: either `revert("...")` with a reason string, or a
Solidity 0.8 arithmetic panic (overflow/underflow of a checked operation). -/
inductive VmError where
  | message (s : String)
  | arithPanic
  deriving DecidableEq

/-- The `Auction` struct (source lines 8-17).  Addresses and token contract
addresses are modelled as `Nat`. -/
structure Auction where
  seller : Nat
  token : Nat
  initialPrice : Nat
  startTime : Nat
  duration : Nat
  decayRate : Nat
  amount : Nat
  active : Bool
  deriving DecidableEq

/-- The zero-initialised record a Solidity mapping yields for a key that was
never written. -/
def Auction.zero : Auction :=
  { seller := 0, token := 0, initialPrice := 0, startTime := 0,
    duration := 0, decayRate := 0, amount := 0, active := false }

/-- Contract storage: the `auctions` mapping (total, with `Auction.zero` as the
default) and the `auctionCount` counter. -/
structure ContractState where
  auctions : Nat → Auction
  auctionCount : Nat

/-- Storage right after deployment: empty mapping, counter 0. -/
def initialState : ContractState :=
  { auctions := fun _ => Auction.zero, auctionCount := 0 }

/-- Checked `uint256` subtraction: panics when the subtrahend exceeds the
minuend. -/
def checkedSub (a b : Nat) : Except VmError Nat :=
  if b ≤ a then .ok (a - b) else .error .arithPanic

/-- Checked `uint256` multiplication: panics when the product reaches `2^256`. -/
def checkedMul (a b : Nat) : Except VmError Nat :=
  if a * b < UINT256 then .ok (a * b) else .error .arithPanic

/-- Checked `uint256` addition: panics when the sum reaches `2^256`. -/
def checkedAdd (a b : Nat) : Except VmError Nat :=
  if a + b < UINT256 then .ok (a + b) else .error .arithPanic

/-- How the external ERC20 ledger answers the `transferFrom` pull-in of
`createAuction`: it may move the funds and return `true`, refuse by returning
`false` (the contract ignores the returned `Bool`), or refuse by reverting
(which aborts the enclosing call). -/
inductive TransferFromResult where
  | success
  | returnsFalse
  | reverts
  deriving DecidableEq

/-- The contract's events (source lines 22-36). -/
inductive Event where
  | auctionCreated (auctionId seller token initialPrice duration decayRate amount : Nat)
  | auctionFinalized (auctionId buyer finalPrice : Nat)
  | auctionCancelled (auctionId : Nat)
  deriving DecidableEq

/-- An outbound transfer issued by the contract: an ERC20 `transfer` of a token
amount, or a native-currency `transfer` of attached value. -/
inductive Transfer where
  | erc20 (token dest amount : Nat)
  | eth (dest amount : Nat)
  deriving DecidableEq

/-- Result of a successful `createAuction`: the returned id, the post-state and
the emitted events. -/
structure CreateResult where
  auctionId : Nat
  state : ContractState
  events : List Event

/-- Result of a successful `buy` or `cancelAuction`: post-state, the outbound
transfers in issue order, and the emitted events. -/
structure OpResult where
  state : ContractState
  transfers : List Transfer
  events : List Event

/-- `createAuction` (source lines 38-82).  `sender` is `msg.sender`, `now` is
`block.timestamp`, `pull` is the external ledger's answer to the
`transferFrom(msg.sender, address(this), amount)` call on line 56 — whose
returned `Bool` the source never checks, so only a reverting ledger aborts the
call. -/
def createAuction (st : ContractState)
    (sender token initialPrice duration decayRate amount now : Nat)
    (pull : TransferFromResult) : Except VmError CreateResult :=
  if initialPrice ≤ 0 then .error (.message "Invalid initial price")
  else if duration ≤ 0 then .error (.message "Invalid duration")
  else if decayRate ≤ 0 then .error (.message "Invalid decay rate")
  else if amount ≤ 0 then .error (.message "Invalid amount")
  else
    match checkedMul duration decayRate with
    | .error e => .error e
    | .ok dtimesd =>
      if initialPrice ≤ dtimesd then .error (.message "Price would reach zero")
      else if pull = .reverts then .error (.message "TransferFrom reverted")
      else
        match checkedAdd st.auctionCount 1 with
        | .error e => .error e
        | .ok newCount =>
          .ok { auctionId := st.auctionCount,
                state :=
                  { auctions := fun i =>
                      if i = st.auctionCount then
                        { seller := sender, token := token,
                          initialPrice := initialPrice, startTime := now,
                          duration := duration, decayRate := decayRate,
                          amount := amount, active := true }
                      else st.auctions i,
                    auctionCount := newCount },
                events := [Event.auctionCreated st.auctionCount sender token
                             initialPrice duration decayRate amount] }

/-- The body of `getCurrentPrice` on the record it read (source lines 87-101). -/
def currentPrice (a : Auction) (now : Nat) : Except VmError Nat :=
  if a.active = false then .error (.message "Auction not active")
  else
    match checkedSub now a.startTime with
    | .error e => .error e
    | .ok elapsedTime =>
      if a.duration ≤ elapsedTime then .ok 0
      else
        match checkedMul elapsedTime a.decayRate with
        | .error e => .error e
        | .ok priceDrop =>
          if a.initialPrice ≤ priceDrop then .ok 0
          else .ok (a.initialPrice - priceDrop)

/-- `getCurrentPrice` (source lines 84-102): reads `auctions[auctionId]` (the
zero record when absent) and prices it at `now` (`block.timestamp`). -/
def getCurrentPrice (st : ContractState) (auctionId now : Nat) : Except VmError Nat :=
  currentPrice (st.auctions auctionId) now

/-- `buy` (source lines 104-128).  `sender` is `msg.sender`, `msgValue` is
`msg.value`, `now` is `block.timestamp`.  On success the status flag is cleared
in the post-state and the outbound transfers are issued against that flipped
state, in source order: escrowed tokens to the buyer, the price to the seller,
then the excess (if any) back to the buyer. -/
def buy (st : ContractState) (auctionId sender msgValue now : Nat) :
    Except VmError OpResult :=
  if (st.auctions auctionId).active = false then .error (.message "Auction not active")
  else
    match getCurrentPrice st auctionId now with
    | .error e => .error e
    | .ok price =>
      if price ≤ 0 then .error (.message "Auction expired")
      else if msgValue < price then .error (.message "Insufficient payment")
      else
        .ok { state :=
                { auctions := fun i =>
                    if i = auctionId then { st.auctions auctionId with active := false }
                    else st.auctions i,
                  auctionCount := st.auctionCount },
              transfers :=
                [Transfer.erc20 (st.auctions auctionId).token sender (st.auctions auctionId).amount,
                 Transfer.eth (st.auctions auctionId).seller price] ++
                (if price < msgValue then [Transfer.eth sender (msgValue - price)] else []),
              events := [Event.auctionFinalized auctionId sender price] }

/-- `cancelAuction` (source lines 130-143).  Note the source order: the
`msg.sender != auction.seller` check on line 133 runs before the `active` check
on line 135. -/
def cancelAuction (st : ContractState) (auctionId sender : Nat) :
    Except VmError OpResult :=
  if sender ≠ (st.auctions auctionId).seller then .error (.message "Not seller")
  else if (st.auctions auctionId).active = false then .error (.message "Auction not active")
  else
    .ok { state :=
            { auctions := fun i =>
                if i = auctionId then { st.auctions auctionId with active := false }
                else st.auctions i,
              auctionCount := st.auctionCount },
          transfers := [Transfer.erc20 (st.auctions auctionId).token
                          (st.auctions auctionId).seller (st.auctions auctionId).amount],
          events := [Event.auctionCancelled auctionId] }

/-- Whether a `createAuction` call succeeded. -/
def createOk (r : Except VmError CreateResult) : Bool :=
  match r with
  | .ok _ => true
  | .error _ => false

/-- Post-state of a `createAuction` result (`initialState` on revert, where no
state change survives). -/
def createdState (r : Except VmError CreateResult) : ContractState :=
  match r with
  | .ok cr => cr.state
  | .error _ => initialState

/-- Events of a `createAuction` result (none on revert). -/
def createdEvents (r : Except VmError CreateResult) : List Event :=
  match r with
  | .ok cr => cr.events
  | .error _ => []

/-- Whether a `buy`/`cancelAuction` call succeeded. -/
def opOk (r : Except VmError OpResult) : Bool :=
  match r with
  | .ok _ => true
  | .error _ => false

/-- Post-state of a `buy`/`cancelAuction` result (`initialState` on revert). -/
def opState (r : Except VmError OpResult) : ContractState :=
  match r with
  | .ok x => x.state
  | .error _ => initialState

/-- Transfers of a `buy`/`cancelAuction` result (none on revert). -/
def opTransfers (r : Except VmError OpResult) : List Transfer :=
  match r with
  | .ok x => x.transfers
  | .error _ => []

/-- Events of a `buy`/`cancelAuction` result (none on revert). -/
def opEvents (r : Except VmError OpResult) : List Event :=
  match r with
  | .ok x => x.events
  | .error _ => []

/-!
Concrete scenario used by witnesses and counterexamples: deployment, then
`createAuction(token = 9, initialPrice = 1000, duration = 100, decayRate = 9,
amount = 10)` from seller 5 at `block.timestamp = 0` against a cooperating
ledger — a valid creation, since `1000 > 100 * 9 = 900`.
-/

/-- The example creation call. -/
def exCreate : Except VmError CreateResult :=
  createAuction initialState 5 9 1000 100 9 10 0 .success

/-- Storage after the example creation: auction 0 is Active. -/
def exState : ContractState := createdState exCreate

/-- Storage after buyer 77 buys auction 0 at `t = 0` attaching exactly the
current price 1000. -/
def soldState : ContractState := opState (buy exState 0 77 1000 0)

/-- Storage after seller 5 cancels auction 0. -/
def cancelledState : ContractState := opState (cancelAuction exState 0 5)

/-- The same creation call against a ledger whose `transferFrom` refuses by
returning `false`. -/
def refusedCreate : Except VmError CreateResult :=
  createAuction initialState 5 9 1000 100 9 10 0 .returnsFalse

/-- A raw auction record whose pricing multiplication overflows: at
`now = 2^100`, `elapsedTime * decayRate = 2^100 * 2^200 = 2^300 ≥ 2^256`.
(No such record can be created through `createAuction`, whose invariant bounds
`duration * decayRate` below `initialPrice`.) -/
def overflowAuction : Auction :=
  { seller := 0, token := 0, initialPrice := 5, startTime := 0,
    duration := 2 ^ 200, decayRate := 2 ^ 200, amount := 1, active := true }

/-- A storage holding `overflowAuction` at id 0. -/
def ovState : ContractState :=
  { auctions := fun i => if i = 0 then overflowAuction else Auction.zero,
    auctionCount := 1 }

/-- Storage after a valid creation at `block.timestamp = 50` (so the stored
`startTime` is 50). -/
def lateState : ContractState :=
  createdState (createAuction initialState 5 9 1000 100 9 10 50 .success)

/-!  General inversion and evaluation lemmas about the four operations.  -/

theorem opOk_exists {r : Except VmError OpResult} (h : opOk r = true) :
    ∃ x, r = .ok x := by
  cases r with
  | ok x => exact ⟨x, rfl⟩
  | error e => simp [opOk] at h

theorem buy_ok_inv {st : ContractState} {auctionId sender msgValue now : Nat}
    {r : OpResult} (h : buy st auctionId sender msgValue now = .ok r) :
    ∃ p, getCurrentPrice st auctionId now = .ok p ∧
      (st.auctions auctionId).active = true ∧ 0 < p ∧ p ≤ msgValue ∧
      r.state.auctions = (fun i => if i = auctionId then
        { st.auctions auctionId with active := false } else st.auctions i) ∧
      r.state.auctionCount = st.auctionCount ∧
      r.transfers =
        [Transfer.erc20 (st.auctions auctionId).token sender (st.auctions auctionId).amount,
         Transfer.eth (st.auctions auctionId).seller p] ++
        (if p < msgValue then [Transfer.eth sender (msgValue - p)] else []) ∧
      r.events = [Event.auctionFinalized auctionId sender p] := by
  unfold buy at h
  by_cases hact : (st.auctions auctionId).active = false
  · rw [if_pos hact] at h; exact absurd h (by simp)
  · rw [if_neg hact] at h
    cases hg : getCurrentPrice st auctionId now with
    | error e => rw [hg] at h; exact absurd h (by simp)
    | ok p =>
      rw [hg] at h
      dsimp only at h
      by_cases hp0 : p ≤ 0
      · rw [if_pos hp0] at h; exact absurd h (by simp)
      · rw [if_neg hp0] at h
        by_cases hv : msgValue < p
        · rw [if_pos hv] at h; exact absurd h (by simp)
        · rw [if_neg hv] at h
          injection h with h2
          subst h2
          exact ⟨p, rfl, by simpa using hact, by omega, by omega, rfl, rfl, rfl, rfl⟩

theorem cancel_ok_inv {st : ContractState} {auctionId caller : Nat} {r : OpResult}
    (h : cancelAuction st auctionId caller = .ok r) :
    caller = (st.auctions auctionId).seller ∧
    (st.auctions auctionId).active = true ∧
    r.state.auctions = (fun i => if i = auctionId then
      { st.auctions auctionId with active := false } else st.auctions i) ∧
    r.state.auctionCount = st.auctionCount ∧
    r.transfers = [Transfer.erc20 (st.auctions auctionId).token
      (st.auctions auctionId).seller (st.auctions auctionId).amount] ∧
    r.events = [Event.auctionCancelled auctionId] := by
  unfold cancelAuction at h
  by_cases hsell : caller ≠ (st.auctions auctionId).seller
  · rw [if_pos hsell] at h; exact absurd h (by simp)
  · rw [if_neg hsell] at h
    by_cases hact : (st.auctions auctionId).active = false
    · rw [if_pos hact] at h; exact absurd h (by simp)
    · rw [if_neg hact] at h
      injection h with h2
      subst h2
      exact ⟨by simpa using hsell, by simpa using hact, rfl, rfl, rfl, rfl⟩

theorem buy_inactive {st : ContractState} {auctionId : Nat}
    (h : (st.auctions auctionId).active = false) (sender msgValue now : Nat) :
    buy st auctionId sender msgValue now = .error (.message "Auction not active") := by
  unfold buy
  rw [if_pos h]

theorem cancel_terminal {st : ContractState} {auctionId : Nat}
    (h : (st.auctions auctionId).active = false) (caller : Nat) :
    cancelAuction st auctionId caller =
      .error (if caller = (st.auctions auctionId).seller then
        VmError.message "Auction not active" else VmError.message "Not seller") := by
  unfold cancelAuction
  by_cases hc : caller = (st.auctions auctionId).seller
  · rw [if_neg (by simpa using hc), if_pos h, if_pos hc]
  · rw [if_pos hc, if_neg hc]

theorem currentPrice_elapsed {a : Auction} (ha : a.active = true) {t : Nat}
    (hov : t * a.decayRate < UINT256) :
    currentPrice a (a.startTime + t) =
      .ok (if t < a.duration then a.initialPrice - t * a.decayRate else 0) := by
  unfold currentPrice
  rw [if_neg (by simp [ha])]
  rw [show checkedSub (a.startTime + t) a.startTime = .ok t from by
    simp [checkedSub, Nat.le_add_right, Nat.add_sub_cancel_left]]
  dsimp only
  by_cases hd : a.duration ≤ t
  · rw [if_pos hd, if_neg (by omega)]
  · rw [if_neg hd]
    rw [show checkedMul t a.decayRate = .ok (t * a.decayRate) from by
      simp [checkedMul, hov]]
    dsimp only
    by_cases hp : a.initialPrice ≤ t * a.decayRate
    · rw [if_pos hp, if_pos (by omega), Nat.sub_eq_zero_of_le hp]
    · rw [if_neg hp, if_pos (by omega)]

theorem currentPrice_ok_le {a : Auction} {now p : Nat}
    (h : currentPrice a now = .ok p) : p ≤ a.initialPrice := by
  unfold currentPrice at h
  by_cases ha : a.active = false
  · rw [if_pos ha] at h; exact absurd h (by simp)
  · rw [if_neg ha] at h
    cases hs : checkedSub now a.startTime with
    | error e => rw [hs] at h; exact absurd h (by simp)
    | ok elapsedTime =>
      rw [hs] at h; dsimp only at h
      by_cases hd : a.duration ≤ elapsedTime
      · rw [if_pos hd] at h; injection h with h2; omega
      · rw [if_neg hd] at h
        cases hm : checkedMul elapsedTime a.decayRate with
        | error e => rw [hm] at h; exact absurd h (by simp)
        | ok priceDrop =>
          rw [hm] at h; dsimp only at h
          by_cases hp : a.initialPrice ≤ priceDrop
          · rw [if_pos hp] at h; injection h with h2; omega
          · rw [if_neg hp] at h; injection h with h2; omega

theorem currentPrice_ok_val {a : Auction} {t p : Nat} (ha : a.active = true)
    (h : currentPrice a (a.startTime + t) = .ok p) :
    p = if t < a.duration then a.initialPrice - t * a.decayRate else 0 := by
  unfold currentPrice at h
  rw [if_neg (by simp [ha])] at h
  rw [show checkedSub (a.startTime + t) a.startTime = .ok t from by
    simp [checkedSub, Nat.le_add_right, Nat.add_sub_cancel_left]] at h
  dsimp only at h
  by_cases hd : a.duration ≤ t
  · rw [if_pos hd] at h; injection h with h2; rw [if_neg (by omega)]; omega
  · rw [if_neg hd] at h
    cases hm : checkedMul t a.decayRate with
    | error e => rw [hm] at h; exact absurd h (by simp)
    | ok priceDrop =>
      have hdrop : priceDrop = t * a.decayRate := by
        unfold checkedMul at hm
        by_cases hb : t * a.decayRate < UINT256
        · rw [if_pos hb] at hm; injection hm with h3; omega
        · rw [if_neg hb] at hm; exact absurd hm (by simp)
      subst hdrop
      rw [hm] at h; dsimp only at h
      rw [if_pos (by omega)]
      by_cases hp : a.initialPrice ≤ t * a.decayRate
      · rw [if_pos hp] at h; injection h with h2
        rw [Nat.sub_eq_zero_of_le hp]; omega
      · rw [if_neg hp] at h; injection h with h2; omega

theorem currentPrice_antitone {a : Auction} {t1 t2 p1 p2 : Nat} (ha : a.active = true)
    (h12 : t1 ≤ t2)
    (h1 : currentPrice a (a.startTime + t1) = .ok p1)
    (h2 : currentPrice a (a.startTime + t2) = .ok p2) : p2 ≤ p1 := by
  rw [currentPrice_ok_val ha h1, currentPrice_ok_val ha h2]
  by_cases hd2 : t2 < a.duration
  · have hd1 : t1 < a.duration := lt_of_le_of_lt h12 hd2
    rw [if_pos hd2, if_pos hd1]
    exact Nat.sub_le_sub_left (Nat.mul_le_mul_right _ h12) _
  · rw [if_neg hd2]
    exact Nat.zero_le _

/-!  Claim theorems.  -/

/-- Claim C2: for any stored Active auction with `initialPrice = P`,
`decayRate = D`, `duration = T`, `startTime = S`, pricing at `now = S + t`
(with the multiplication `t * D` inside `uint256`, i.e. no overflow) returns
`max(0, P - t*D)` — which over `Nat` is the truncated subtraction `P - t*D` —
for `0 ≤ t < T`, and returns `0` for `t ≥ T`; the returned price is
monotonically non-increasing in `t`. -/
theorem getCurrentPrice_linear_decay (st : ContractState) (auctionId : Nat)
    (ha : (st.auctions auctionId).active = true) :
    (∀ t, t * (st.auctions auctionId).decayRate < UINT256 →
      getCurrentPrice st auctionId ((st.auctions auctionId).startTime + t) =
        .ok (if t < (st.auctions auctionId).duration then
          (st.auctions auctionId).initialPrice - t * (st.auctions auctionId).decayRate
        else 0)) ∧
    (∀ t1 t2 p1 p2, t1 ≤ t2 →
      getCurrentPrice st auctionId ((st.auctions auctionId).startTime + t1) = .ok p1 →
      getCurrentPrice st auctionId ((st.auctions auctionId).startTime + t2) = .ok p2 →
      p2 ≤ p1) := by
  constructor
  · intro t hov
    exact currentPrice_elapsed ha hov
  · intro t1 t2 p1 p2 h12 h1 h2
    exact currentPrice_antitone ha h12 h1 h2

/-- Witness for C2: on the example auction (P = 1000, T = 100, D = 9, S = 0),
the price at `t = 50` is `1000 - 450 = 550`, and is bounded by the price 1000
at `t = 0`. -/
theorem getCurrentPrice_linear_decay_witness :
    getCurrentPrice exState 0 50 = .ok 550 ∧ (550 : Nat) ≤ 1000 :=
  ⟨(getCurrentPrice_linear_decay exState 0 (by decide)).1 50 (by decide),
   (getCurrentPrice_linear_decay exState 0 (by decide)).2 0 50 1000 550
     (by decide) (by rfl) (by rfl)⟩

/-- Claim C6 (amended): for an id under which no auction was ever inserted the
mapping yields the zero record, whose `active` flag is `false`, so
`getCurrentPrice` and `buy` fail with the same `"Auction not active"` revert
that terminal auctions produce — the contract has no distinct NotFound
failure for absent records. -/
theorem absent_id_rejected (st : ContractState) (auctionId : Nat)
    (habs : st.auctions auctionId = Auction.zero) (now sender msgValue : Nat) :
    getCurrentPrice st auctionId now = .error (.message "Auction not active") ∧
    buy st auctionId sender msgValue now = .error (.message "Auction not active") := by
  have hact : (st.auctions auctionId).active = false := by rw [habs]; rfl
  constructor
  · unfold getCurrentPrice currentPrice
    rw [if_pos hact]
  · exact buy_inactive hact sender msgValue now

/-- Witness for C6 (amended) on the freshly deployed state. -/
theorem absent_id_rejected_witness :
    getCurrentPrice initialState 0 5 = .error (.message "Auction not active") ∧
    buy initialState 0 7 100 5 = .error (.message "Auction not active") :=
  absent_id_rejected initialState 0 rfl 5 7 100

/-- Claim C6 counterexample: on the freshly deployed state, id 0 was never
inserted, yet both `getCurrentPrice` and `buy` fail with the `"Auction not
active"` revert — the failure the claim says is reserved for existing,
non-Active auctions — and not with any distinct NotFound failure. -/
theorem absent_id_cex :
    initialState.auctions 0 = Auction.zero ∧
    getCurrentPrice initialState 0 5 = .error (.message "Auction not active") ∧
    buy initialState 0 7 100 5 = .error (.message "Auction not active") :=
  ⟨rfl, rfl, rfl⟩

/-- Claim C10: invoking `getCurrentPrice` on a stored Active auction at a time
`now` strictly before its `startTime` makes the checked subtraction
`now - startTime` underflow: the call reverts with an arithmetic panic, and no
price computed from a wrapped-around elapsed time is ever returned. -/
theorem price_before_start_underflows (st : ContractState) (auctionId now : Nat)
    (ha : (st.auctions auctionId).active = true)
    (hlt : now < (st.auctions auctionId).startTime) :
    getCurrentPrice st auctionId now = .error .arithPanic := by
  unfold getCurrentPrice currentPrice
  rw [if_neg (by simp [ha])]
  rw [show checkedSub now (st.auctions auctionId).startTime = .error .arithPanic from by
    unfold checkedSub; rw [if_neg (by omega)]]

/-- Witness for C10: the auction created at `block.timestamp = 50`, priced at
`now = 49`, reverts with an arithmetic panic. -/
theorem price_before_start_underflows_witness :
    getCurrentPrice lateState 0 49 = .error .arithPanic :=
  price_before_start_underflows lateState 0 49 (by decide) (by decide)

theorem buy_opOk_state {st : ContractState} {auctionId sender msgValue now : Nat}
    (h : opOk (buy st auctionId sender msgValue now) = true) :
    ((opState (buy st auctionId sender msgValue now)).auctions auctionId).active = false := by
  obtain ⟨r, hr⟩ := opOk_exists h
  obtain ⟨p, _, _, _, _, hmap, _, _, _⟩ := buy_ok_inv hr
  rw [hr]
  show (r.state.auctions auctionId).active = false
  rw [hmap]
  simp

theorem cancel_opOk_state {st : ContractState} {auctionId caller : Nat}
    (h : opOk (cancelAuction st auctionId caller) = true) :
    ((opState (cancelAuction st auctionId caller)).auctions auctionId).active = false := by
  obtain ⟨r, hr⟩ := opOk_exists h
  obtain ⟨_, _, hmap, _, _, _⟩ := cancel_ok_inv hr
  rw [hr]
  show (r.state.auctions auctionId).active = false
  rw [hmap]
  simp

/-- Claim C1 (amended): after a first successful `buy` (or `cancelAuction`) on
an id, the stored record's active flag is false in the very state against
which the outbound transfers are issued, so every subsequent — including
reentrant — `buy` on that id fails with "Auction not active"; a subsequent
`cancelAuction` also always fails, but its error is "Auction not active" only
when the caller is the stored seller, and "Not seller" for any other caller
(the source checks the seller before the active flag, lines 133-136). -/
theorem settlement_is_final (st : ContractState) (auctionId : Nat) :
    (∀ sender msgValue now, opOk (buy st auctionId sender msgValue now) = true →
      ((opState (buy st auctionId sender msgValue now)).auctions auctionId).active = false ∧
      (∀ s v n, buy (opState (buy st auctionId sender msgValue now)) auctionId s v n =
        .error (.message "Auction not active")) ∧
      (∀ c, cancelAuction (opState (buy st auctionId sender msgValue now)) auctionId c =
        .error (if c = ((opState (buy st auctionId sender msgValue now)).auctions auctionId).seller
          then VmError.message "Auction not active" else VmError.message "Not seller"))) ∧
    (∀ caller, opOk (cancelAuction st auctionId caller) = true →
      ((opState (cancelAuction st auctionId caller)).auctions auctionId).active = false ∧
      (∀ s v n, buy (opState (cancelAuction st auctionId caller)) auctionId s v n =
        .error (.message "Auction not active")) ∧
      (∀ c, cancelAuction (opState (cancelAuction st auctionId caller)) auctionId c =
        .error (if c = ((opState (cancelAuction st auctionId caller)).auctions auctionId).seller
          then VmError.message "Auction not active" else VmError.message "Not seller"))) := by
  constructor
  · intro sender msgValue now hok
    have hact := buy_opOk_state hok
    exact ⟨hact, fun s v n => buy_inactive hact s v n, fun c => cancel_terminal hact c⟩
  · intro caller hok
    have hact := cancel_opOk_state hok
    exact ⟨hact, fun s v n => buy_inactive hact s v n, fun c => cancel_terminal hact c⟩

/-- Witness for C1 (amended): after buyer 77 buys auction 0, the flag is down,
a retried buy fails with "Auction not active", and a cancel from caller 99
(not the seller 5) fails with the seller check. -/
theorem settlement_is_final_witness :
    ((opState (buy exState 0 77 1000 0)).auctions 0).active = false ∧
    buy (opState (buy exState 0 77 1000 0)) 0 88 2000 0 =
      .error (.message "Auction not active") ∧
    cancelAuction (opState (buy exState 0 77 1000 0)) 0 99 =
      .error (if (99 : Nat) = ((opState (buy exState 0 77 1000 0)).auctions 0).seller
        then VmError.message "Auction not active" else VmError.message "Not seller") :=
  ⟨((settlement_is_final exState 0).1 77 1000 0 (by decide)).1,
   ((settlement_is_final exState 0).1 77 1000 0 (by decide)).2.1 88 2000 0,
   ((settlement_is_final exState 0).1 77 1000 0 (by decide)).2.2 99⟩

/-- Claim C1 counterexample: after a successful buy of auction 0 (whose seller
is 5), a subsequent `cancelAuction` from caller 99 fails with "Not seller" —
not with the claimed "Auction not active". -/
theorem settlement_cancel_cex :
    opOk (buy exState 0 77 1000 0) = true ∧
    cancelAuction soldState 0 99 = .error (.message "Not seller") ∧
    VmError.message "Not seller" ≠ VmError.message "Auction not active" :=
  ⟨by decide, rfl, by decide⟩

/-- Claim C7 (amended): `cancelAuction` checks the seller before the active
flag: any caller differing from the stored seller field (including the zero
seller of an absent record) gets "Not seller", whatever the status; "Auction
not active" is reported exactly when the caller equals the stored seller and
the auction is not Active. -/
theorem cancel_checks_seller_first (st : ContractState) (auctionId caller : Nat) :
    (caller ≠ (st.auctions auctionId).seller →
      cancelAuction st auctionId caller = .error (.message "Not seller")) ∧
    (caller = (st.auctions auctionId).seller →
      (st.auctions auctionId).active = false →
      cancelAuction st auctionId caller = .error (.message "Auction not active")) := by
  constructor
  · intro hne
    unfold cancelAuction
    rw [if_pos hne]
  · intro heq hact
    unfold cancelAuction
    rw [if_neg (fun hne => hne heq), if_pos hact]

/-- Witness for C7 (amended) on the cancelled auction 0 with seller 5. -/
theorem cancel_checks_seller_first_witness :
    cancelAuction cancelledState 0 99 = .error (.message "Not seller") ∧
    cancelAuction cancelledState 0 5 = .error (.message "Auction not active") :=
  ⟨(cancel_checks_seller_first cancelledState 0 99).1 (by decide),
   (cancel_checks_seller_first cancelledState 0 5).2 (by decide) (by decide)⟩

/-- Claim C7 counterexample: auction 0 exists and is no longer Active (it was
cancelled), yet `cancelAuction` from caller 99 reports "Not seller" instead of
the claimed "Auction not active". -/
theorem cancel_order_cex :
    opOk (cancelAuction exState 0 5) = true ∧
    (cancelledState.auctions 0).active = false ∧
    cancelAuction cancelledState 0 99 = .error (.message "Not seller") :=
  ⟨by decide, by decide, rfl⟩

/-- Claim C9 (amended): the stored record keeps only the source's boolean
`active` flag, so the record after a successful `buy` equals the record after a
successful `cancelAuction` of the same auction — storage does not reveal which
terminal transition occurred; only the emitted events (`AuctionFinalized` vs
`AuctionCancelled`) distinguish the two causes. -/
theorem terminal_records_indistinguishable (st : ContractState)
    (auctionId sender msgValue now caller : Nat)
    (hbuy : opOk (buy st auctionId sender msgValue now) = true)
    (hcan : opOk (cancelAuction st auctionId caller) = true) :
    (opState (buy st auctionId sender msgValue now)).auctions auctionId =
      (opState (cancelAuction st auctionId caller)).auctions auctionId ∧
    opEvents (buy st auctionId sender msgValue now) ≠
      opEvents (cancelAuction st auctionId caller) := by
  obtain ⟨r1, h1⟩ := opOk_exists hbuy
  obtain ⟨r2, h2⟩ := opOk_exists hcan
  obtain ⟨p, _, _, _, _, hmap1, _, _, hev1⟩ := buy_ok_inv h1
  obtain ⟨_, _, hmap2, _, _, hev2⟩ := cancel_ok_inv h2
  rw [h1, h2]
  constructor
  · show r1.state.auctions auctionId = r2.state.auctions auctionId
    rw [hmap1, hmap2]
  · show r1.events ≠ r2.events
    rw [hev1, hev2]
    simp

/-- Witness for C9 (amended) on the example auction. -/
theorem terminal_records_indistinguishable_witness :
    soldState.auctions 0 = cancelledState.auctions 0 ∧
    opEvents (buy exState 0 77 1000 0) ≠ opEvents (cancelAuction exState 0 5) :=
  terminal_records_indistinguishable exState 0 77 1000 0 5 (by decide) (by decide)

/-- Claim C9 counterexample: for the example auction, a successful buy and a
successful cancel leave byte-for-byte identical stored records — an observer
reading storage cannot tell which terminal transition occurred. -/
theorem terminal_records_cex :
    opOk (buy exState 0 77 1000 0) = true ∧
    opOk (cancelAuction exState 0 5) = true ∧
    soldState.auctions 0 = cancelledState.auctions 0 :=
  ⟨by decide, by decide, by decide⟩

/-- Claim C4: a successful `buy` at current price `p` issues exactly these
transfers, in order: the full escrowed amount to the payer, exactly `p` to the
seller, and — only when `paymentAmount > p` — exactly `paymentAmount - p` back
to the payer; when `paymentAmount = p` no refund transfer is made. -/
theorem buy_settlement_exact (st : ContractState) (auctionId sender msgValue now : Nat)
    (hok : opOk (buy st auctionId sender msgValue now) = true)
    (p : Nat) (hp : getCurrentPrice st auctionId now = .ok p) :
    opTransfers (buy st auctionId sender msgValue now) =
      [Transfer.erc20 (st.auctions auctionId).token sender (st.auctions auctionId).amount,
       Transfer.eth (st.auctions auctionId).seller p] ++
      (if p < msgValue then [Transfer.eth sender (msgValue - p)] else []) := by
  obtain ⟨r, hr⟩ := opOk_exists hok
  obtain ⟨q, hq, _, _, _, _, _, htr, _⟩ := buy_ok_inv hr
  have hpq : q = p := by
    have h2 := hq.symm.trans hp
    injection h2
  rw [hr]
  show r.transfers = _
  rw [htr, hpq]

/-- Witness for C4: at `t = 50` the price is 550; paying 1500 refunds exactly
950, and paying exactly 550 issues no refund transfer. -/
theorem buy_settlement_exact_witness :
    opTransfers (buy exState 0 77 1500 50) =
      [Transfer.erc20 9 77 10, Transfer.eth 5 550, Transfer.eth 77 950] ∧
    opTransfers (buy exState 0 77 550 50) =
      [Transfer.erc20 9 77 10, Transfer.eth 5 550] :=
  ⟨(buy_settlement_exact exState 0 77 1500 50 (by decide) 550 (by rfl)).trans (by decide),
   (buy_settlement_exact exState 0 77 550 50 (by decide) 550 (by rfl)).trans (by decide)⟩

theorem currentPrice_expired {a : Auction} (ha : a.active = true) {t : Nat}
    (hd : a.duration ≤ t) : currentPrice a (a.startTime + t) = .ok 0 := by
  unfold currentPrice
  rw [if_neg (by simp [ha])]
  rw [show checkedSub (a.startTime + t) a.startTime = .ok t from by
    simp [checkedSub, Nat.le_add_right, Nat.add_sub_cancel_left]]
  dsimp only
  rw [if_pos hd]

/-- Claim C5 (amended): `createAuction` evaluates its checks in the fixed
source order — `initialPrice`, `duration`, `decayRate`, `amount` positivity,
then the `initialPrice ≤ duration * decayRate` guard — failing with the first
violated condition's error.  With all four parameters positive and
`initialPrice ≤ duration * decayRate`, it fails with "Price would reach zero"
provided the product `duration * decayRate` itself fits in `uint256`; when the
product overflows, the Solidity 0.8 checked multiplication inside the guard
reverts with an arithmetic panic instead.  Every such outcome is a revert, so
no record is stored, the counter is unchanged and no event is emitted. -/
theorem createAuction_first_violation (st : ContractState)
    (sender token initialPrice duration decayRate amount now : Nat)
    (pull : TransferFromResult) :
    (initialPrice = 0 →
      createAuction st sender token initialPrice duration decayRate amount now pull =
        .error (.message "Invalid initial price")) ∧
    (0 < initialPrice → duration = 0 →
      createAuction st sender token initialPrice duration decayRate amount now pull =
        .error (.message "Invalid duration")) ∧
    (0 < initialPrice → 0 < duration → decayRate = 0 →
      createAuction st sender token initialPrice duration decayRate amount now pull =
        .error (.message "Invalid decay rate")) ∧
    (0 < initialPrice → 0 < duration → 0 < decayRate → amount = 0 →
      createAuction st sender token initialPrice duration decayRate amount now pull =
        .error (.message "Invalid amount")) ∧
    (0 < initialPrice → 0 < duration → 0 < decayRate → 0 < amount →
      initialPrice ≤ duration * decayRate → duration * decayRate < UINT256 →
      createAuction st sender token initialPrice duration decayRate amount now pull =
        .error (.message "Price would reach zero")) ∧
    (0 < initialPrice → 0 < duration → 0 < decayRate → 0 < amount →
      ¬ (duration * decayRate < UINT256) →
      createAuction st sender token initialPrice duration decayRate amount now pull =
        .error .arithPanic) := by
  refine ⟨?_, ?_, ?_, ?_, ?_, ?_⟩
  · intro h1
    unfold createAuction
    rw [if_pos (by omega)]
  · intro h1 h2
    unfold createAuction
    rw [if_neg (by omega), if_pos (by omega)]
  · intro h1 h2 h3
    unfold createAuction
    rw [if_neg (by omega), if_neg (by omega), if_pos (by omega)]
  · intro h1 h2 h3 h4
    unfold createAuction
    rw [if_neg (by omega), if_neg (by omega), if_neg (by omega), if_pos (by omega)]
  · intro h1 h2 h3 h4 hle hov
    unfold createAuction
    rw [if_neg (by omega), if_neg (by omega), if_neg (by omega), if_neg (by omega)]
    rw [show checkedMul duration decayRate = .ok (duration * decayRate) from by
      unfold checkedMul; rw [if_pos hov]]
    dsimp only
    rw [if_pos hle]
  · intro h1 h2 h3 h4 hnov
    unfold createAuction
    rw [if_neg (by omega), if_neg (by omega), if_neg (by omega), if_neg (by omega)]
    rw [show checkedMul duration decayRate = .error .arithPanic from by
      unfold checkedMul; rw [if_neg hnov]]

/-- Witness for C5 (amended): `initialPrice = 500 ≤ 100 * 9 = 900` with all
parameters positive fails with "Price would reach zero". -/
theorem createAuction_first_violation_witness :
    createAuction initialState 5 9 500 100 9 10 0 .success =
      .error (.message "Price would reach zero") :=
  (createAuction_first_violation initialState 5 9 500 100 9 10 0 .success).2.2.2.2.1
    (by decide) (by decide) (by decide) (by decide) (by decide) (by decide)

/-- Claim C5 counterexample: all four parameters positive and
`initialPrice = 1 ≤ duration * decayRate = 2^128 * 2^128`, yet the call
reverts with an arithmetic panic (the checked product overflows `uint256`),
not with "Price would reach zero". -/
theorem createAuction_overflow_cex :
    (1 : Nat) ≤ 2 ^ 128 * 2 ^ 128 ∧
    createAuction initialState 1 2 1 (2 ^ 128) (2 ^ 128) 1 0 .success =
      .error .arithPanic ∧
    createAuction initialState 1 2 1 (2 ^ 128) (2 ^ 128) 1 0 .success ≠
      .error (.message "Price would reach zero") := by
  refine ⟨by decide, rfl, fun h => ?_⟩
  have h2 : (Except.error VmError.arithPanic : Except VmError CreateResult) =
      .error (.message "Price would reach zero") :=
    (show createAuction initialState 1 2 1 (2 ^ 128) (2 ^ 128) 1 0 .success =
        .error .arithPanic from rfl).symm.trans h
  injection h2 with h3
  simp at h3

/-- Claim C8 (amended): `getCurrentPrice` never returns a wrapped-around
price.  Every successfully returned price is bounded by `initialPrice`; for a
record satisfying the creation invariant `duration * decayRate < initialPrice`
(with `initialPrice` a `uint256` value) the multiplication can never overflow —
the call succeeds whenever `now ≥ startTime`; and on a raw record whose
`elapsedTime * decayRate` would overflow, the Solidity 0.8 checked
multiplication reverts with an arithmetic panic rather than returning 0 or a
wrapped value. -/
theorem price_never_wraps (st : ContractState) (auctionId now : Nat) :
    (∀ p, getCurrentPrice st auctionId now = .ok p →
      p ≤ (st.auctions auctionId).initialPrice) ∧
    ((st.auctions auctionId).active = true →
      (st.auctions auctionId).duration * (st.auctions auctionId).decayRate <
        (st.auctions auctionId).initialPrice →
      (st.auctions auctionId).initialPrice < UINT256 →
      (st.auctions auctionId).startTime ≤ now →
      ∃ p, getCurrentPrice st auctionId now = .ok p) ∧
    ((st.auctions auctionId).active = true →
      (st.auctions auctionId).startTime ≤ now →
      now - (st.auctions auctionId).startTime < (st.auctions auctionId).duration →
      ¬ ((now - (st.auctions auctionId).startTime) * (st.auctions auctionId).decayRate
          < UINT256) →
      getCurrentPrice st auctionId now = .error .arithPanic) := by
  refine ⟨?_, ?_, ?_⟩
  · intro p hp
    exact currentPrice_ok_le hp
  · intro ha hinv hbound hle
    rw [show now = (st.auctions auctionId).startTime +
        (now - (st.auctions auctionId).startTime) from by omega]
    by_cases hd : now - (st.auctions auctionId).startTime < (st.auctions auctionId).duration
    · have hov : (now - (st.auctions auctionId).startTime) *
          (st.auctions auctionId).decayRate < UINT256 := by
        calc (now - (st.auctions auctionId).startTime) * (st.auctions auctionId).decayRate
            ≤ (st.auctions auctionId).duration * (st.auctions auctionId).decayRate :=
              Nat.mul_le_mul_right _ (Nat.le_of_lt hd)
          _ < (st.auctions auctionId).initialPrice := hinv
          _ < UINT256 := hbound
      exact ⟨_, currentPrice_elapsed ha hov⟩
    · exact ⟨0, currentPrice_expired ha (by omega)⟩
  · intro ha hle hlt hnov
    unfold getCurrentPrice currentPrice
    rw [if_neg (by simp [ha])]
    rw [show checkedSub now (st.auctions auctionId).startTime =
        .ok (now - (st.auctions auctionId).startTime) from by
      unfold checkedSub; rw [if_pos hle]]
    dsimp only
    rw [if_neg (by omega)]
    rw [show checkedMul (now - (st.auctions auctionId).startTime)
        (st.auctions auctionId).decayRate = .error .arithPanic from by
      unfold checkedMul; rw [if_neg hnov]]

/-- Witness for C8 (amended): the bound at the example auction, existence of a
price for it at `t = 50`, and the panic on the raw overflow record. -/
theorem price_never_wraps_witness :
    (550 : Nat) ≤ (exState.auctions 0).initialPrice ∧
    (∃ p, getCurrentPrice exState 0 50 = .ok p) ∧
    getCurrentPrice ovState 0 (2 ^ 100) = .error .arithPanic :=
  ⟨(price_never_wraps exState 0 50).1 550 (by rfl),
   (price_never_wraps exState 0 50).2.1 (by decide) (by decide) (by decide) (by decide),
   (price_never_wraps ovState 0 (2 ^ 100)).2.2 (by decide) (by decide) (by decide)
     (by decide)⟩

/-- Claim C8 counterexample: on a raw Active record whose
`elapsedTime * decayRate` overflows `uint256` (`2^100 * 2^200 = 2^300`),
`getCurrentPrice` reverts with an arithmetic panic — it does not return 0. -/
theorem price_overflow_cex :
    ¬ (2 ^ 100 * (2 : Nat) ^ 200 < UINT256) ∧
    getCurrentPrice ovState 0 (2 ^ 100) = .error .arithPanic ∧
    getCurrentPrice ovState 0 (2 ^ 100) ≠ .ok 0 := by
  refine ⟨by decide, rfl, fun h => ?_⟩
  have h2 : (Except.error VmError.arithPanic : Except VmError Nat) = .ok 0 :=
    (show getCurrentPrice ovState 0 (2 ^ 100) = .error .arithPanic from rfl).symm.trans h
  exact Except.noConfusion h2

/-- Claim C3 (code bug): `createAuction` never reads the `Bool` that
`transferFrom` returns (source line 56), so when the external ledger refuses
the pull-in by returning `false` — the standard non-reverting ERC20 refusal —
the creation still succeeds: the auction record is stored, `auctionCount` is
incremented, and `AuctionCreated` is emitted.  Only a ledger that refuses by
reverting aborts the creation. -/
theorem create_despite_refused_pull :
    createOk refusedCreate = true ∧
    (createdState refusedCreate).auctions 0 =
      { seller := 5, token := 9, initialPrice := 1000, startTime := 0,
        duration := 100, decayRate := 9, amount := 10, active := true } ∧
    (createdState refusedCreate).auctionCount = 1 ∧
    createdEvents refusedCreate = [Event.auctionCreated 0 5 9 1000 100 9 10] ∧
    createAuction initialState 5 9 1000 100 9 10 0 .reverts =
      .error (.message "TransferFrom reverted") :=
  ⟨by decide, by decide, by decide, by decide, rfl⟩
